import Mathlib

/-!
Shallow embedding of `src/qa_tools/plot.py` (`plot_working_graph`).

The Python function compares an ideal topology graph `T` (built by
`dnx.chimera_graph` / `dnx.pegasus_graph`) against the device's working
graph `G` (`sampler.to_networkx_graph()`), computes the missing nodes and
edges, builds positional color lists, draws the graph, optionally adds a
hardcoded rectangle gated on `chip_id == "DW_2000Q_6"`, writes or shows the
figure, and finally calls `plt.clf()`.

Graphs are embedded as lists of node identifiers and edge tuples.  NetworkX
undirected graphs enumerate each edge once as a tuple in a fixed
orientation; membership of a pair in an `EdgeView` (`(u, v) in G.edges()`)
is orientation-insensitive (`v in adj[u]` with a symmetric adjacency), which
`edgeMem` models.  The Python sets `error_node` / `error_edge` are built by
`Set.__sub__`, i.e. the elements of `T`'s view (in `T`'s enumeration
orientation) that are not members of `G`'s view; membership of an
enumeration element in the resulting plain set of tuples is ordinary tuple
equality, which `List.contains` models.
-/

namespace QaTools

/-- A graph as the embedding sees it: the node enumeration and the edge
enumeration (each undirected edge listed once, in the orientation the view
yields it). -/
structure Graph where
  nodes : List Nat
  edges : List (Nat × Nat)
deriving DecidableEq, Repr

/-- Orientation-insensitive membership of a pair in an undirected edge
list, as NetworkX `(u, v) in G.edges()` behaves. -/
def edgeMem (e : Nat × Nat) (es : List (Nat × Nat)) : Bool :=
  es.any (fun f => (f.1 == e.1 && f.2 == e.2) || (f.1 == e.2 && f.2 == e.1))

/-- Embedding of `error_node = set(T.nodes() - G.nodes())`: the ideal nodes
that are not nodes of the working graph. -/
def computeErrorNodes (T G : Graph) : List Nat :=
  T.nodes.filter (fun v => !(G.nodes.contains v))

/-- Embedding of `error_edge = set(T.edges() - G.edges())`: the ideal edges
(in the ideal enumeration orientation) that are not edges of the working
graph, compared with orientation-insensitive membership. -/
def computeErrorEdges (T G : Graph) : List (Nat × Nat) :=
  T.edges.filter (fun e => !(edgeMem e G.edges))

/-- The pair of defect sets the diff step produces. -/
structure DefectSet where
  nodes : List Nat
  edges : List (Nat × Nat)
deriving DecidableEq, Repr

/-- The whole diff step of `plot_working_graph` (lines 55 and 58 of the
source), bundled. -/
def computeDefects (T G : Graph) : DefectSet :=
  ⟨computeErrorNodes T G, computeErrorEdges T G⟩

/-- Embedding of
`node_color = [ng_color if v in error_node else ok_color for v in T.nodes()]`. -/
def nodeColorList (T G : Graph) (ngColor okColor : String) : List String :=
  T.nodes.map (fun v => if (computeErrorNodes T G).contains v then ngColor else okColor)

/-- Embedding of
`edge_color = [ng_color if e in error_edge else ok_color for e in T.edges()]`;
both `e` and the members of `error_edge` come from the same enumeration of
`T.edges()`, so plain tuple membership is the faithful model. -/
def edgeColorList (T G : Graph) (ngColor okColor : String) : List String :=
  T.edges.map (fun e => if (computeErrorEdges T G).contains e then ngColor else okColor)

/-- Which generator/drawer pair the topology dispatch selected
(`dnx.chimera_graph`/`dnx.draw_chimera` or `dnx.pegasus_graph`/`dnx.draw_pegasus`). -/
inductive TopologyFuncs where
  | chimera
  | pegasus
deriving DecidableEq, Repr

/-- Embedding of the topology dispatch (lines 41-49 of the source): two
recognized kinds, every other value raises `ValueError`. -/
def selectTopology (topologyType : String) : Except String TopologyFuncs :=
  if topologyType == "chimera" then Except.ok TopologyFuncs.chimera
  else if topologyType == "pegasus" then Except.ok TopologyFuncs.pegasus
  else Except.error ("support chimera or pegasus, unsupported " ++ topologyType ++ ".")

/-- The data of a `matplotlib.patches.Rectangle` as constructed in the
source, with the decimal literals embedded as exact rationals. -/
structure Rectangle where
  x : Rat
  y : Rat
  width : Rat
  height : Rat
  ec : String
  fill : Bool
  ls : String
  lw : String
deriving DecidableEq, Repr

/-- The hardcoded rectangle of the source:
`patches.Rectangle(xy=(0.37, -0.82), width=0.64, height=0.83, ec='green', fill=False, ls="--", lw="2")`. -/
def hardcodedRectangle : Rectangle :=
  ⟨37 / 100, -82 / 100, 64 / 100, 83 / 100, "green", false, "--", "2"⟩

/-- The one chip identity for which the rectangle is supported. -/
def expectedChipId : String := "DW_2000Q_6"

/-- Embedding of the region block (lines 66-73 of the source) as a function
of the axis patch list, the device identity and the request flag.  It takes
no graph and no topology input, so the rectangle it may add cannot depend on
them. -/
def annotateRegion (axPatches : List Rectangle) (chipId : String)
    (drawRectangle : Bool) : Except String (List Rectangle) :=
  if drawRectangle then
    if chipId != expectedChipId then
      Except.error ("support DW_2000Q_6, unsupported " ++ chipId ++ ".")
    else
      Except.ok (axPatches ++ [hardcodedRectangle])
  else
    Except.ok axPatches

/-- The observable side-effecting steps of one invocation, in the order the
source performs them. -/
inductive Event where
  | queryWorkingGraph
  | generateIdealGraph
  | createFigure
  | draw
  | addRectanglePatch
  | showFigure
  | saveFigure
  | clearFigure
deriving DecidableEq, Repr

/-- The matplotlib state an invocation builds up: the ordered event trace,
whether `plt.figure` has run, whether `plt.clf` has run, the patches on the
axis, and the color lists handed to the drawer. -/
structure RenderState where
  trace : List Event
  figureCreated : Bool
  figureCleared : Bool
  patches : List Rectangle
  drawnColors : Option (List String × List String)
deriving DecidableEq, Repr

/-- State before anything has happened. -/
def initialRenderState : RenderState := ⟨[], false, false, [], none⟩

/-- The sampler fields `plot_working_graph` reads:
`properties["topology"]["type"]`, `properties["topology"]["shape"]`,
`to_networkx_graph()`, and `properties["chip_id"]`. -/
structure SamplerData where
  topologyType : String
  topologyShape : List Nat
  workingGraph : Graph
  chipId : String
deriving DecidableEq, Repr

/-- The outcome of one invocation: the raised error message, if any, and
the matplotlib state at the moment the call returns or raises. -/
structure RenderResult where
  error : Option String
  state : RenderState
deriving DecidableEq, Repr

/-- The tail of the normal path: `plt.show()` or
`os.makedirs(...); plt.savefig(out_path)`, then `plt.clf()`. -/
def finishRender (outPath : Option String) (st : RenderState) : RenderResult :=
  let st1 := match outPath with
    | none => { st with trace := st.trace ++ [Event.showFigure] }
    | some _ => { st with trace := st.trace ++ [Event.saveFigure] }
  ⟨none, { st1 with trace := st1.trace ++ [Event.clearFigure], figureCleared := true }⟩

/-- Embedding of the whole of `plot_working_graph`, with the external
generator functions `dnx.chimera_graph` and `dnx.pegasus_graph` passed in as
parameters.  A raised `ValueError` returns the matplotlib state exactly as
it stood when the exception propagated (there is no `try`/`finally` in the
source). -/
def plotWorkingGraph (chimeraGraph pegasusGraph : List Nat → Graph)
    (sampler : SamplerData) (outPath : Option String)
    (ngColor okColor : String) (drawRectangle : Bool) : RenderResult :=
  match selectTopology sampler.topologyType with
  | Except.error msg => ⟨some msg, initialRenderState⟩
  | Except.ok funcs =>
    let graphFunc := match funcs with
      | TopologyFuncs.chimera => chimeraGraph
      | TopologyFuncs.pegasus => pegasusGraph
    let G := sampler.workingGraph
    let T := graphFunc sampler.topologyShape
    let nodeCol := nodeColorList T G ngColor okColor
    let edgeCol := edgeColorList T G ngColor okColor
    let st0 : RenderState :=
      ⟨[Event.queryWorkingGraph, Event.generateIdealGraph, Event.createFigure, Event.draw],
       true, false, [], some (nodeCol, edgeCol)⟩
    if drawRectangle then
      match annotateRegion st0.patches sampler.chipId true with
      | Except.error msg => ⟨some msg, st0⟩
      | Except.ok ps =>
        finishRender outPath
          { st0 with trace := st0.trace ++ [Event.addRectanglePatch], patches := ps }
    else
      finishRender outPath st0

/-- A pair that occurs in an edge list is an orientation-insensitive
member of it. -/
theorem edgeMem_of_mem {e : Nat × Nat} {es : List (Nat × Nat)} (h : e ∈ es) :
    edgeMem e es = true := by
  simp only [edgeMem, List.any_eq_true]
  exact ⟨e, h, by simp⟩

/-- Membership characterization of `edgeMem`. -/
theorem edgeMem_iff (e : Nat × Nat) (es : List (Nat × Nat)) :
    edgeMem e es = true ↔ (e.1, e.2) ∈ es ∨ (e.2, e.1) ∈ es := by
  simp only [edgeMem, List.any_eq_true, Bool.or_eq_true, Bool.and_eq_true, beq_iff_eq]
  constructor
  · rintro ⟨f, hf, ⟨h1, h2⟩ | ⟨h1, h2⟩⟩
    · left
      rw [← h1, ← h2]
      exact hf
    · right
      rw [← h1, ← h2]
      exact hf
  · rintro (h | h)
    · exact ⟨(e.1, e.2), h, Or.inl ⟨rfl, rfl⟩⟩
    · exact ⟨(e.2, e.1), h, Or.inr ⟨rfl, rfl⟩⟩

/-- C1: Edge orientation invariance of the defect computation — if the
ideal graph contains the edge `(a, b)` and the actual graph contains the
same edge written `(b, a)`, the computed edge-defect set contains the edge
in neither orientation: the subtraction tests membership
orientation-insensitively, so structurally identical edges are never
reported as defective because of orientation. -/
theorem edge_orientation_invariance (T G : Graph) (a b : Nat)
    (hT : (a, b) ∈ T.edges) (hG : (b, a) ∈ G.edges) :
    (a, b) ∉ computeErrorEdges T G ∧ (b, a) ∉ computeErrorEdges T G := by
  have h1 : edgeMem (a, b) G.edges = true :=
    (edgeMem_iff (a, b) G.edges).mpr (Or.inr hG)
  have h2 : edgeMem (b, a) G.edges = true :=
    (edgeMem_iff (b, a) G.edges).mpr (Or.inl hG)
  constructor
  · intro hc
    have := (List.mem_filter.mp hc).2
    simp [h1] at this
  · intro hc
    have := (List.mem_filter.mp hc).2
    simp [h2] at this

/-- Witness for C1 at a concrete pair of graphs: ideal edge `(1, 2)`,
actual edge `(2, 1)`. -/
theorem edge_orientation_invariance_witness :
    (1, 2) ∉ computeErrorEdges ⟨[1, 2], [(1, 2)]⟩ ⟨[1, 2], [(2, 1)]⟩ ∧
    (2, 1) ∉ computeErrorEdges ⟨[1, 2], [(1, 2)]⟩ ⟨[1, 2], [(2, 1)]⟩ :=
  edge_orientation_invariance ⟨[1, 2], [(1, 2)]⟩ ⟨[1, 2], [(2, 1)]⟩ 1 2
    (by decide) (by decide)

/-- C2: No-defect case — if the actual graph has the same node membership
as the ideal graph and the same edge membership up to unordered-pair
equality, both defect sets are empty and every entry of both color lists is
the ok color. -/
theorem no_defect_case (T G : Graph) (ngc okc : String)
    (hn : ∀ v, v ∈ G.nodes ↔ v ∈ T.nodes)
    (he : ∀ e, edgeMem e G.edges = edgeMem e T.edges) :
    computeErrorNodes T G = [] ∧ computeErrorEdges T G = [] ∧
    (∀ c ∈ nodeColorList T G ngc okc, c = okc) ∧
    (∀ c ∈ edgeColorList T G ngc okc, c = okc) := by
  have hnodes : computeErrorNodes T G = [] := by
    simp only [computeErrorNodes, List.filter_eq_nil_iff]
    intro v hv
    simp [List.elem_iff, (hn v).mpr hv]
  have hedges : computeErrorEdges T G = [] := by
    simp only [computeErrorEdges, List.filter_eq_nil_iff]
    intro e he'
    simp [he e, edgeMem_of_mem he']
  refine ⟨hnodes, hedges, ?_, ?_⟩
  · intro c hc
    simp only [nodeColorList, List.mem_map] at hc
    obtain ⟨v, _, hv⟩ := hc
    rw [hnodes] at hv
    simpa using hv.symm
  · intro c hc
    simp only [edgeColorList, List.mem_map] at hc
    obtain ⟨e, _, he'⟩ := hc
    rw [hedges] at he'
    simpa using he'.symm

/-- Witness for C2 at a concrete identical pair of graphs. -/
theorem no_defect_case_witness :
    computeErrorNodes ⟨[1, 2], [(1, 2)]⟩ ⟨[1, 2], [(1, 2)]⟩ = [] ∧
    computeErrorEdges ⟨[1, 2], [(1, 2)]⟩ ⟨[1, 2], [(1, 2)]⟩ = [] ∧
    (∀ c ∈ nodeColorList ⟨[1, 2], [(1, 2)]⟩ ⟨[1, 2], [(1, 2)]⟩ "red" "blue", c = "blue") ∧
    (∀ c ∈ edgeColorList ⟨[1, 2], [(1, 2)]⟩ ⟨[1, 2], [(1, 2)]⟩ "red" "blue", c = "blue") :=
  no_defect_case ⟨[1, 2], [(1, 2)]⟩ ⟨[1, 2], [(1, 2)]⟩ "red" "blue"
    (fun _ => Iff.rfl) (fun _ => rfl)

/-- C3: Single-missing-node case — for ideal nodes `[1, 2, 3]` with edges
`[(1, 2), (2, 3)]` and actual nodes `[1, 3]` with no edges, the defect node
set is exactly `{2}`, the defect edge set is exactly `{(1, 2), (2, 3)}`,
and the color lists give node 2 and both edges the defect color and nodes 1
and 3 the ok color. -/
theorem single_missing_node (ngc okc : String) :
    computeErrorNodes ⟨[1, 2, 3], [(1, 2), (2, 3)]⟩ ⟨[1, 3], []⟩ = [2] ∧
    computeErrorEdges ⟨[1, 2, 3], [(1, 2), (2, 3)]⟩ ⟨[1, 3], []⟩ = [(1, 2), (2, 3)] ∧
    nodeColorList ⟨[1, 2, 3], [(1, 2), (2, 3)]⟩ ⟨[1, 3], []⟩ ngc okc = [okc, ngc, okc] ∧
    edgeColorList ⟨[1, 2, 3], [(1, 2), (2, 3)]⟩ ⟨[1, 3], []⟩ ngc okc = [ngc, ngc] :=
  ⟨rfl, rfl, rfl, rfl⟩

/-- C4: Defect-set definition — membership in the computed defect sets is
exactly membership in the ideal graph minus (orientation-insensitive, for
edges) membership in the actual graph; hence both defect sets are subsets
of the ideal graph's sets, and an edge enters the defect set exactly when
it is itself absent from the actual edge set, never merely because one of
its endpoints is a defect node. -/
theorem defect_set_definition (T G : Graph) :
    (∀ v, v ∈ (computeDefects T G).nodes ↔ v ∈ T.nodes ∧ v ∉ G.nodes) ∧
    (∀ e, e ∈ (computeDefects T G).edges ↔ e ∈ T.edges ∧ edgeMem e G.edges = false) ∧
    (∀ v ∈ (computeDefects T G).nodes, v ∈ T.nodes) ∧
    (∀ e ∈ (computeDefects T G).edges, e ∈ T.edges) := by
  refine ⟨fun v => ?_, fun e => ?_, fun v hv => ?_, fun e he => ?_⟩
  · simp [computeDefects, computeErrorNodes, List.mem_filter, List.elem_iff]
  · simp [computeDefects, computeErrorEdges, List.mem_filter]
  · exact (List.mem_filter.mp hv).1
  · exact (List.mem_filter.mp he).1

/-- Witness for C4 at a concrete pair of graphs: node 2 is a defect, edge
`(2, 3)` is a defect, edge `(1, 2)` is not although endpoint 2 is a defect
node. -/
theorem defect_set_definition_witness :
    (2 ∈ (computeDefects ⟨[1, 2, 3], [(1, 2), (2, 3)]⟩ ⟨[1, 3], [(2, 1)]⟩).nodes) ∧
    ((2, 3) ∈ (computeDefects ⟨[1, 2, 3], [(1, 2), (2, 3)]⟩ ⟨[1, 3], [(2, 1)]⟩).edges) ∧
    ((1, 2) ∉ (computeDefects ⟨[1, 2, 3], [(1, 2), (2, 3)]⟩ ⟨[1, 3], [(2, 1)]⟩).edges) :=
  ⟨((defect_set_definition ⟨[1, 2, 3], [(1, 2), (2, 3)]⟩ ⟨[1, 3], [(2, 1)]⟩).1 2).mpr
      (by decide),
   ((defect_set_definition ⟨[1, 2, 3], [(1, 2), (2, 3)]⟩ ⟨[1, 3], [(2, 1)]⟩).2.1 (2, 3)).mpr
      (by decide),
   fun hc =>
     absurd
       (((defect_set_definition ⟨[1, 2, 3], [(1, 2), (2, 3)]⟩ ⟨[1, 3], [(2, 1)]⟩).2.1
           (1, 2)).mp hc).2
       (by decide)⟩

/-- An unsupported topology string makes the dispatch raise. -/
theorem selectTopology_unsupported {t : String}
    (h1 : t ≠ "chimera") (h2 : t ≠ "pegasus") :
    selectTopology t =
      Except.error ("support chimera or pegasus, unsupported " ++ t ++ ".") := by
  simp [selectTopology, h1, h2]

/-- C5: Topology selection — both supported kinds yield a generator/drawer
pair without failing, every other value makes the dispatch raise the
unsupported-topology `ValueError` (whose message names the value), and such
an invocation of the entry point fails with no show and no save in its
trace. -/
theorem topology_selection (chimeraGraph pegasusGraph : List Nat → Graph)
    (sampler : SamplerData) (outPath : Option String) (ngc okc : String)
    (dr : Bool) (h1 : sampler.topologyType ≠ "chimera")
    (h2 : sampler.topologyType ≠ "pegasus") :
    selectTopology "chimera" = Except.ok TopologyFuncs.chimera ∧
    selectTopology "pegasus" = Except.ok TopologyFuncs.pegasus ∧
    selectTopology sampler.topologyType =
      Except.error
        ("support chimera or pegasus, unsupported " ++ sampler.topologyType ++ ".") ∧
    (plotWorkingGraph chimeraGraph pegasusGraph sampler outPath ngc okc dr).error =
      some ("support chimera or pegasus, unsupported " ++ sampler.topologyType ++ ".") ∧
    Event.showFigure ∉
      (plotWorkingGraph chimeraGraph pegasusGraph sampler outPath ngc okc dr).state.trace ∧
    Event.saveFigure ∉
      (plotWorkingGraph chimeraGraph pegasusGraph sampler outPath ngc okc dr).state.trace := by
  have hsel := selectTopology_unsupported h1 h2
  refine ⟨rfl, rfl, hsel, ?_, ?_, ?_⟩ <;>
    simp [plotWorkingGraph, hsel, initialRenderState]

/-- Witness for C5 at a concrete unsupported topology string. -/
theorem topology_selection_witness :
    selectTopology "chimera" = Except.ok TopologyFuncs.chimera ∧
    selectTopology "pegasus" = Except.ok TopologyFuncs.pegasus ∧
    selectTopology "zephyr" =
      Except.error "support chimera or pegasus, unsupported zephyr." ∧
    (plotWorkingGraph (fun _ => ⟨[], []⟩) (fun _ => ⟨[], []⟩)
        ⟨"zephyr", [1], ⟨[], []⟩, "DW_2000Q_6"⟩ none "red" "blue" false).error =
      some "support chimera or pegasus, unsupported zephyr." ∧
    Event.showFigure ∉
      (plotWorkingGraph (fun _ => ⟨[], []⟩) (fun _ => ⟨[], []⟩)
        ⟨"zephyr", [1], ⟨[], []⟩, "DW_2000Q_6"⟩ none "red" "blue" false).state.trace ∧
    Event.saveFigure ∉
      (plotWorkingGraph (fun _ => ⟨[], []⟩) (fun _ => ⟨[], []⟩)
        ⟨"zephyr", [1], ⟨[], []⟩, "DW_2000Q_6"⟩ none "red" "blue" false).state.trace :=
  topology_selection (fun _ => ⟨[], []⟩) (fun _ => ⟨[], []⟩)
    ⟨"zephyr", [1], ⟨[], []⟩, "DW_2000Q_6"⟩ none "red" "blue" false
    (by decide) (by decide)

/-- C6: Region gating — when the rectangle is not requested the region step
never fails and changes nothing, whatever the identity; when requested with
an identity other than `DW_2000Q_6` it fails with the `ValueError` naming
the expected and the actual identity; when requested with the matching
identity it succeeds and adds exactly the hardcoded rectangle (a constant:
`annotateRegion` receives no graph and no topology) to the axis. -/
theorem region_gating (ps : List Rectangle) (chipId : String)
    (h : chipId ≠ expectedChipId) :
    annotateRegion ps chipId false = Except.ok ps ∧
    annotateRegion ps expectedChipId false = Except.ok ps ∧
    annotateRegion ps chipId true =
      Except.error ("support DW_2000Q_6, unsupported " ++ chipId ++ ".") ∧
    annotateRegion ps expectedChipId true = Except.ok (ps ++ [hardcodedRectangle]) := by
  refine ⟨rfl, rfl, ?_, by simp [annotateRegion]⟩
  simp [annotateRegion, h]

/-- Witness for C6 at a concrete patch list and identity. -/
theorem region_gating_witness :
    annotateRegion [] "Advantage_system4.1" false = Except.ok [] ∧
    annotateRegion [] expectedChipId false = Except.ok [] ∧
    annotateRegion [] "Advantage_system4.1" true =
      Except.error "support DW_2000Q_6, unsupported Advantage_system4.1." ∧
    annotateRegion [] expectedChipId true = Except.ok ([] ++ [hardcodedRectangle]) :=
  region_gating [] "Advantage_system4.1" (by decide)

/-- C7: Order and length preservation of the color lists — each list has
the length of the corresponding ideal enumeration, and entry `i` is exactly
the color the defect test assigns to entry `i` of the ideal enumeration. -/
theorem color_list_order_preservation (T G : Graph) (ngc okc : String) :
    (nodeColorList T G ngc okc).length = T.nodes.length ∧
    (edgeColorList T G ngc okc).length = T.edges.length ∧
    (∀ i : Nat,
      (nodeColorList T G ngc okc).get? i =
        (T.nodes.get? i).map
          (fun v => if (computeErrorNodes T G).contains v then ngc else okc)) ∧
    (∀ i : Nat,
      (edgeColorList T G ngc okc).get? i =
        (T.edges.get? i).map
          (fun e => if (computeErrorEdges T G).contains e then ngc else okc)) := by
  refine ⟨?_, ?_, fun i => ?_, fun i => ?_⟩ <;>
    simp [nodeColorList, edgeColorList]

/-- C8: Purity and determinism of the defect computation — the diff step is
a pure function of its two graph arguments (the source only reads the node
and edge views and builds fresh sets; no operation mutates `G` or `T`), so
identical inputs give equal defect sets. -/
theorem computeDefects_deterministic (T G T' G' : Graph)
    (hT : T = T') (hG : G = G') :
    computeDefects T G = computeDefects T' G' := by
  subst hT
  subst hG
  rfl

/-- Witness for C8 at a concrete pair of graphs. -/
theorem computeDefects_deterministic_witness :
    computeDefects ⟨[1, 2], [(1, 2)]⟩ ⟨[1], []⟩ =
      computeDefects ⟨[1, 2], [(1, 2)]⟩ ⟨[1], []⟩ :=
  computeDefects_deterministic ⟨[1, 2], [(1, 2)]⟩ ⟨[1], []⟩
    ⟨[1, 2], [(1, 2)]⟩ ⟨[1], []⟩ rfl rfl

/-- C9 counterexample: a concrete invocation that exits through the
invalid-identity error path (topology `chimera`, rectangle requested,
`chip_id` not `DW_2000Q_6`) returns with a figure that was created and
drawn but never cleared — `plt.clf()` is only reached on the normal path,
so the claim that every invocation, error exits included, clears its
drawing surface is false on this input. -/
theorem figure_cleanup_counterexample :
    (plotWorkingGraph (fun _ => ⟨[1], []⟩) (fun _ => ⟨[1], []⟩)
        ⟨"chimera", [1], ⟨[1], []⟩, "Advantage_system4.1"⟩
        none "red" "blue" true).error =
      some "support DW_2000Q_6, unsupported Advantage_system4.1." ∧
    (plotWorkingGraph (fun _ => ⟨[1], []⟩) (fun _ => ⟨[1], []⟩)
        ⟨"chimera", [1], ⟨[1], []⟩, "Advantage_system4.1"⟩
        none "red" "blue" true).state.figureCreated = true ∧
    (plotWorkingGraph (fun _ => ⟨[1], []⟩) (fun _ => ⟨[1], []⟩)
        ⟨"chimera", [1], ⟨[1], []⟩, "Advantage_system4.1"⟩
        none "red" "blue" true).state.figureCleared = false := by
  refine ⟨?_, rfl, rfl⟩
  decide

/-- C9 amended: an invocation clears its drawing surface exactly when it
returns without error; the unsupported-topology failure happens before any
figure is created, while the invalid-identity failure leaves the created,
drawn figure uncleared. -/
theorem figure_cleanup_amended (chimeraGraph pegasusGraph : List Nat → Graph)
    (sampler : SamplerData) (outPath : Option String) (ngc okc : String)
    (dr : Bool) :
    ((plotWorkingGraph chimeraGraph pegasusGraph sampler outPath ngc okc
        dr).state.figureCleared = true ↔
      (plotWorkingGraph chimeraGraph pegasusGraph sampler outPath ngc okc
        dr).error = none) ∧
    ((sampler.topologyType = "chimera" ∨ sampler.topologyType = "pegasus") →
      dr = true → sampler.chipId ≠ expectedChipId →
      (plotWorkingGraph chimeraGraph pegasusGraph sampler outPath ngc okc
        dr).error =
        some ("support DW_2000Q_6, unsupported " ++ sampler.chipId ++ ".") ∧
      (plotWorkingGraph chimeraGraph pegasusGraph sampler outPath ngc okc
        dr).state.figureCreated = true ∧
      (plotWorkingGraph chimeraGraph pegasusGraph sampler outPath ngc okc
        dr).state.figureCleared = false) := by
  constructor
  · rcases hsel : selectTopology sampler.topologyType with msg | tf
    · simp [plotWorkingGraph, hsel, initialRenderState]
    · cases dr
      · cases outPath <;> simp [plotWorkingGraph, hsel, finishRender]
      · by_cases hch : sampler.chipId = expectedChipId
        · cases outPath <;>
            simp [plotWorkingGraph, hsel, annotateRegion, hch, finishRender]
        · simp [plotWorkingGraph, hsel, annotateRegion, bne_iff_ne, hch]
  · rintro (h | h) hdr hch <;> subst hdr <;>
      simp [plotWorkingGraph, selectTopology, h, annotateRegion, bne_iff_ne, hch]

/-- Witness for C9 (amended) at the concrete invalid-identity invocation. -/
theorem figure_cleanup_amended_witness :
    ((plotWorkingGraph (fun _ => ⟨[2], []⟩) (fun _ => ⟨[2], []⟩)
        ⟨"chimera", [2], ⟨[2], []⟩, "Advantage2_system1.1"⟩
        none "red" "blue" true).state.figureCleared = true ↔
      (plotWorkingGraph (fun _ => ⟨[2], []⟩) (fun _ => ⟨[2], []⟩)
        ⟨"chimera", [2], ⟨[2], []⟩, "Advantage2_system1.1"⟩
        none "red" "blue" true).error = none) ∧
    ((plotWorkingGraph (fun _ => ⟨[2], []⟩) (fun _ => ⟨[2], []⟩)
        ⟨"chimera", [2], ⟨[2], []⟩, "Advantage2_system1.1"⟩
        none "red" "blue" true).error =
      some ("support DW_2000Q_6, unsupported " ++ "Advantage2_system1.1" ++ ".") ∧
    (plotWorkingGraph (fun _ => ⟨[2], []⟩) (fun _ => ⟨[2], []⟩)
        ⟨"chimera", [2], ⟨[2], []⟩, "Advantage2_system1.1"⟩
        none "red" "blue" true).state.figureCreated = true ∧
    (plotWorkingGraph (fun _ => ⟨[2], []⟩) (fun _ => ⟨[2], []⟩)
        ⟨"chimera", [2], ⟨[2], []⟩, "Advantage2_system1.1"⟩
        none "red" "blue" true).state.figureCleared = false) :=
  ⟨(figure_cleanup_amended (fun _ => ⟨[2], []⟩) (fun _ => ⟨[2], []⟩)
      ⟨"chimera", [2], ⟨[2], []⟩, "Advantage2_system1.1"⟩
      none "red" "blue" true).1,
   (figure_cleanup_amended (fun _ => ⟨[2], []⟩) (fun _ => ⟨[2], []⟩)
      ⟨"chimera", [2], ⟨[2], []⟩, "Advantage2_system1.1"⟩
      none "red" "blue" true).2 (Or.inl rfl) rfl (by decide)⟩

/-- C10: Atomicity of the topology failure — an unsupported topology makes
the entry point raise before the working graph is queried, before the ideal
graph is generated and before any figure is created (the trace holds none
of those events and no figure exists); the invalid-identity failure instead
raises only after the full graph was drawn onto a newly created figure (the
trace at the raise is exactly query, generate, create figure, draw). -/
theorem topology_failure_atomicity (chimeraGraph pegasusGraph : List Nat → Graph)
    (sampler : SamplerData) (outPath : Option String) (ngc okc : String)
    (dr : Bool) :
    (sampler.topologyType ≠ "chimera" → sampler.topologyType ≠ "pegasus" →
      (plotWorkingGraph chimeraGraph pegasusGraph sampler outPath ngc okc
        dr).error.isSome = true ∧
      Event.queryWorkingGraph ∉
        (plotWorkingGraph chimeraGraph pegasusGraph sampler outPath ngc okc
          dr).state.trace ∧
      Event.generateIdealGraph ∉
        (plotWorkingGraph chimeraGraph pegasusGraph sampler outPath ngc okc
          dr).state.trace ∧
      Event.createFigure ∉
        (plotWorkingGraph chimeraGraph pegasusGraph sampler outPath ngc okc
          dr).state.trace ∧
      (plotWorkingGraph chimeraGraph pegasusGraph sampler outPath ngc okc
        dr).state.figureCreated = false) ∧
    ((sampler.topologyType = "chimera" ∨ sampler.topologyType = "pegasus") →
      dr = true → sampler.chipId ≠ expectedChipId →
      (plotWorkingGraph chimeraGraph pegasusGraph sampler outPath ngc okc
        dr).error.isSome = true ∧
      (plotWorkingGraph chimeraGraph pegasusGraph sampler outPath ngc okc
        dr).state.trace =
        [Event.queryWorkingGraph, Event.generateIdealGraph, Event.createFigure,
         Event.draw]) := by
  constructor
  · intro h1 h2
    have hsel := selectTopology_unsupported h1 h2
    refine ⟨?_, ?_, ?_, ?_, ?_⟩ <;>
      simp [plotWorkingGraph, hsel, initialRenderState]
  · rintro (h | h) hdr hch <;> subst hdr <;>
      simp [plotWorkingGraph, selectTopology, h, annotateRegion, bne_iff_ne, hch]

/-- Witness for C10: the unsupported-topology part at a concrete `zephyr`
sampler and the invalid-identity part at a concrete `pegasus` sampler. -/
theorem topology_failure_atomicity_witness :
    ((plotWorkingGraph (fun _ => ⟨[3], []⟩) (fun _ => ⟨[3], []⟩)
        ⟨"zephyr2", [3], ⟨[3], []⟩, "DW_2000Q_6"⟩
        none "red" "blue" true).error.isSome = true ∧
      Event.queryWorkingGraph ∉
        (plotWorkingGraph (fun _ => ⟨[3], []⟩) (fun _ => ⟨[3], []⟩)
          ⟨"zephyr2", [3], ⟨[3], []⟩, "DW_2000Q_6"⟩
          none "red" "blue" true).state.trace ∧
      Event.generateIdealGraph ∉
        (plotWorkingGraph (fun _ => ⟨[3], []⟩) (fun _ => ⟨[3], []⟩)
          ⟨"zephyr2", [3], ⟨[3], []⟩, "DW_2000Q_6"⟩
          none "red" "blue" true).state.trace ∧
      Event.createFigure ∉
        (plotWorkingGraph (fun _ => ⟨[3], []⟩) (fun _ => ⟨[3], []⟩)
          ⟨"zephyr2", [3], ⟨[3], []⟩, "DW_2000Q_6"⟩
          none "red" "blue" true).state.trace ∧
      (plotWorkingGraph (fun _ => ⟨[3], []⟩) (fun _ => ⟨[3], []⟩)
        ⟨"zephyr2", [3], ⟨[3], []⟩, "DW_2000Q_6"⟩
        none "red" "blue" true).state.figureCreated = false) ∧
    ((plotWorkingGraph (fun _ => ⟨[4], []⟩) (fun _ => ⟨[4], []⟩)
        ⟨"pegasus", [4], ⟨[4], []⟩, "DW_2000Q_5"⟩
        none "red" "blue" true).error.isSome = true ∧
      (plotWorkingGraph (fun _ => ⟨[4], []⟩) (fun _ => ⟨[4], []⟩)
        ⟨"pegasus", [4], ⟨[4], []⟩, "DW_2000Q_5"⟩
        none "red" "blue" true).state.trace =
        [Event.queryWorkingGraph, Event.generateIdealGraph, Event.createFigure,
         Event.draw]) :=
  ⟨(topology_failure_atomicity (fun _ => ⟨[3], []⟩) (fun _ => ⟨[3], []⟩)
      ⟨"zephyr2", [3], ⟨[3], []⟩, "DW_2000Q_6"⟩
      none "red" "blue" true).1 (by decide) (by decide),
   (topology_failure_atomicity (fun _ => ⟨[4], []⟩) (fun _ => ⟨[4], []⟩)
      ⟨"pegasus", [4], ⟨[4], []⟩, "DW_2000Q_5"⟩
      none "red" "blue" true).2 (Or.inr rfl) rfl (by decide)⟩

end QaTools
